import Mathlib

/-!
Verification development for the http_hopper fan-out gateway.

The Go sources are embedded shallowly:
* `Destination` mirrors the `Destination` struct (the opaque Mongo ObjectID
  field carries no forwarding logic and is elided).
* `forwardRequestToDestinations` mirrors `forwarder.go`; the network is an
  oracle `Nat → ReplayOutcome` giving, per list index, the outcome of the
  outbound HTTP call issued by that replay goroutine, and `net/url.Parse`
  is an oracle `String → Option GoURL`.  Concurrency is rendered as a fold
  in list order: the mutex in the source serialises the capture writes, and
  the claims under study are order-insensitive (membership and counts).
* `ForwardRequest` mirrors the handler in the first unnamed source file,
  including the Go 1.16 range-variable aliasing of `defaultDestination`
  (the module declares `go 1.16`, so `&dest` aliases the single per-loop
  variable, whose value after the loop is the last element of the list).
* `BroadcastTraffic` mirrors the hub broadcast over the subscriber set;
  iteration order of the Go map is rendered as list order, and a write
  failure is a per-subscriber boolean.
-/

/-- The destination record (`Destination` struct); the database ID is elided. -/
structure Destination where
  url : String
  method : String
  isActive : Bool
  isDefault : Bool
deriving DecidableEq, Repr

/-- The parts of `net/url.URL` the program reads and writes. -/
structure GoURL where
  scheme : String
  host : String
  path : String
  rawQuery : String
deriving DecidableEq, Repr

/-- `strings.HasSuffix(s, "/")`: the last character is a slash. -/
def hasSuffixSlash (s : String) : Bool :=
  s.data.getLast? = some '/'

/-- `strings.HasPrefix(s, "/")`: the first character is a slash. -/
def hasPrefixSlash (s : String) : Bool :=
  s.data.head? = some '/'

/-- `strings.TrimRight(s, "/")`: drop every trailing slash. -/
def trimTrailingSlashes (s : String) : String :=
  ⟨(s.data.reverse.dropWhile (fun c => c = '/')).reverse⟩

/-- Path composition from `forwarder.go` lines 44-47: append a slash when the
base path does not end in one and the request path does not start with one,
then trim trailing slashes from the base and append the request path. -/
def composeForwardPath (basePath reqPath : String) : String :=
  let b := if !hasSuffixSlash basePath && !hasPrefixSlash reqPath
           then basePath ++ "/" else basePath
  trimTrailingSlashes b ++ reqPath

/-- `forwardURL` construction (`forwarder.go` lines 43-48): copy the parsed
destination URL, compose the path, and take the inbound raw query. -/
def composeForwardURL (base : GoURL) (reqPath reqQuery : String) : GoURL :=
  { base with path := composeForwardPath base.path reqPath, rawQuery := reqQuery }

/-- Rendering of `url.URL.String()` for the URL shapes the program builds:
optional `scheme:`, then `//host` when a scheme or host is present, then the
path and, when non-empty, `?` and the raw query. -/
def urlString (u : GoURL) : String :=
  (if u.scheme = "" then "" else u.scheme ++ ":") ++
  (if u.scheme = "" && u.host = "" then "" else "//" ++ u.host) ++
  u.path ++
  (if u.rawQuery = "" then "" else "?" ++ u.rawQuery)

/-- Status line, status code and headers of a received HTTP response. -/
structure RespData where
  statusCode : Nat
  status : String
  headers : List (String × String)
deriving DecidableEq, Repr

/-- Result of `ioutil.ReadAll` on a response body: the full body, or a
failure carrying the bytes read before the error. -/
inductive ReadResult where
  | ok (body : String)
  | fail (bodySoFar : String)
deriving DecidableEq, Repr

/-- Outcome of one replay goroutine once the forward URL exists:
`http.NewRequest` fails, `client.Do` fails, or a response arrives whose
body read (performed only on the capture path) yields a `ReadResult`. -/
inductive ReplayOutcome where
  | newReqErr (msg : String)
  | doErr (msg : String)
  | resp (r : RespData) (read : ReadResult)
deriving DecidableEq, Repr

/-- Effect of one replay on the shared capture slots in `forwarder.go`:
nothing, only `defaultResponseBody` assigned (the body read failed after a
partial read), or both `defaultResponse` and `defaultResponseBody` set. -/
inductive CaptureAct where
  | noCapture
  | bodyOnly (b : String)
  | both (r : RespData) (b : String)
deriving DecidableEq, Repr

/-- What one replay goroutine produces: the destination it served, whether
an outbound HTTP request was actually issued, the hub lines it broadcast,
and its effect on the capture slots. -/
structure ReplayEffect where
  dest : Destination
  issued : Bool
  lines : List String
  capture : CaptureAct
deriving DecidableEq, Repr

/-- One replay goroutine (`forwarder.go` lines 32-105).  A URL parse failure
or an `http.NewRequest` failure is logged only: no broadcast, no outbound
request.  A `client.Do` failure broadcasts one error line.  A response whose
destination URL equals the default destination URL is captured; if its body
read fails the goroutine returns before the success broadcast.  Every other
response broadcasts one success line. -/
def runReplay (parse : String → Option GoURL) (reqPath reqQuery : String)
    (defaultDest dest : Destination) (outcome : ReplayOutcome) : ReplayEffect :=
  match parse dest.url with
  | none => ⟨dest, false, [], .noCapture⟩
  | some base =>
    let fwd := urlString (composeForwardURL base reqPath reqQuery)
    match outcome with
    | .newReqErr _ => ⟨dest, false, [], .noCapture⟩
    | .doErr msg =>
        ⟨dest, true, ["Error forwarding to " ++ fwd ++ ": " ++ msg], .noCapture⟩
    | .resp r read =>
        if dest.url = defaultDest.url then
          match read with
          | .fail bodySoFar => ⟨dest, true, [], .bodyOnly bodySoFar⟩
          | .ok b =>
              ⟨dest, true,
               ["Request forwarded to " ++ fwd ++ " with status: " ++ r.status],
               .both r b⟩
        else
          ⟨dest, true,
           ["Request forwarded to " ++ fwd ++ " with status: " ++ r.status],
           .noCapture⟩

/-- The fan-out loop (`forwarder.go` lines 30-106): one replay per listed
destination, the network oracle indexed by position. -/
def replayEffects (parse : String → Option GoURL) (reqPath reqQuery : String)
    (defaultDest : Destination) :
    List Destination → (Nat → ReplayOutcome) → List ReplayEffect
  | [], _ => []
  | d :: ds, oracle =>
      runReplay parse reqPath reqQuery defaultDest d (oracle 0) ::
        replayEffects parse reqPath reqQuery defaultDest ds (fun n => oracle (n + 1))

/-- Serialised updates of the mutex-guarded pair
(`defaultResponse`, `defaultResponseBody`). -/
def applyCapture (s : Option RespData × Option String) (c : CaptureAct) :
    Option RespData × Option String :=
  match c with
  | .noCapture => s
  | .bodyOnly b => (s.1, some b)
  | .both r b => (some r, some b)

/-- Final value of the capture slots after all replays complete. -/
def finalCapture (effs : List ReplayEffect) : Option RespData × Option String :=
  effs.foldl (fun s e => applyCapture s e.capture) (none, none)

/-- `forwardRequestToDestinations` (`forwarder.go` lines 14-115): returns the
hub lines broadcast by the replays and either the captured default response
with its body, or the error returned when `defaultResponse` is still nil
after the join. -/
def forwardRequestToDestinations (parse : String → Option GoURL)
    (reqPath reqQuery : String) (destinations : List Destination)
    (defaultDest : Destination) (oracle : Nat → ReplayOutcome) :
    List String × Except String (RespData × String) :=
  let effs := replayEffects parse reqPath reqQuery defaultDest destinations oracle
  ((effs.map ReplayEffect.lines).flatten,
   match finalCapture effs with
   | (none, _) => .error "no response received from default destination"
   | (some r, b) => .ok (r, b.getD ""))

/-- Eligibility test from `ForwardRequest`: active, and the method filter is
empty or equals the inbound method exactly. -/
def eligible (d : Destination) (method : String) : Bool :=
  d.isActive && (d.method == "" || d.method == method)

/-- The `activeDestinations` list built by the selection loop. -/
def activeDestinations (dests : List Destination) (method : String) :
    List Destination :=
  dests.filter (fun d => eligible d method)

/-- The destination record the handler uses as the default.  The source sets
`defaultDestination = &dest` inside `for _, dest := range destinations` and
dereferences it only after the loop; under the declared Go 1.16 semantics
`dest` is one variable for the whole loop, so the pointer observes the last
element of the list whenever any eligible destination carried the default
flag during the loop. -/
def selectedDefault (dests : List Destination) (method : String) :
    Option Destination :=
  if dests.any (fun d => eligible d method && d.isDefault) then dests.getLast?
  else none

/-- Outcome of the handler towards the original caller: an `http.Error`
with status code and message, or the relayed default response and body. -/
inductive DispatchResult where
  | httpError (status : Nat) (msg : String)
  | success (resp : RespData) (body : String)
deriving DecidableEq, Repr

/-- Observable output of one dispatch: the per-replay hub lines, the
destinations to which an outbound request was actually issued, and the
result for the caller.  The incoming-request hub line broadcast before the
selection loop is not modelled (no claim concerns it). -/
structure DispatchOut where
  hub : List String
  replays : List Destination
  result : DispatchResult
deriving DecidableEq, Repr

/-- The tail of `ForwardRequest` after default selection: the empty-URL
check, the parse of the default URL, and the call into
`forwardRequestToDestinations` over the active destinations. -/
def dispatchFromDefault (parse : String → Option GoURL)
    (reqPath reqQuery : String) (active : List Destination)
    (dd : Destination) (oracle : Nat → ReplayOutcome) : DispatchOut :=
  if dd.url = "" then
    ⟨[], [], .httpError 500 "Default destination URL is empty"⟩
  else
    match parse dd.url with
    | none => ⟨[], [], .httpError 500 "Error parsing default destination URL"⟩
    | some _ =>
      let effs := replayEffects parse reqPath reqQuery dd active oracle
      let fwd := forwardRequestToDestinations parse reqPath reqQuery active dd oracle
      ⟨fwd.1,
       (effs.filter ReplayEffect.issued).map ReplayEffect.dest,
       match fwd.2 with
       | .error m => .httpError 500 ("Error forwarding request: " ++ m)
       | .ok (r, b) => .success r b⟩

/-- `ForwardRequest` (handler of the first unnamed source file, lines
141-261): filter eligible destinations, fail 502 when none, select the
default (with the range-variable aliasing of `selectedDefault`), fail 500
when none, then run `dispatchFromDefault`. -/
def ForwardRequest (parse : String → Option GoURL)
    (method reqPath reqQuery : String) (dests : List Destination)
    (oracle : Nat → ReplayOutcome) : DispatchOut :=
  let active := activeDestinations dests method
  if active.isEmpty then
    ⟨[], [], .httpError 502 "No active destinations available"⟩
  else
    match selectedDefault dests method with
    | none => ⟨[], [], .httpError 500 "No default destination specified"⟩
    | some dd => dispatchFromDefault parse reqPath reqQuery active dd oracle

/-- A hub subscriber: its identity and whether `WriteMessage` succeeds. -/
structure Subscriber where
  id : Nat
  writeOk : Bool
deriving DecidableEq, Repr

/-- `BroadcastTraffic` (first unnamed source file, lines 127-138): iterate
the subscriber set, write the line to each; on a write error close and
remove that subscriber and continue with the rest.  Returns the surviving
set and the list of deliveries made. -/
def BroadcastTraffic (message : String) :
    List Subscriber → List Subscriber × List (Subscriber × String)
  | [] => ([], [])
  | c :: cs =>
      let rest := BroadcastTraffic message cs
      if c.writeOk then (c :: rest.1, (c, message) :: rest.2)
      else (rest.1, rest.2)

deriving instance DecidableEq for Except

/-- Concrete rendering of `url.Parse` on the URL strings used in the
concrete scenarios below; `://bad` has no scheme and fails to parse, the
empty string parses to the zero URL, as in Go. -/
def parseDemo : String → Option GoURL := fun s =>
  if s = "http://u" then some ⟨"http", "u", "", ""⟩
  else if s = "http://b" then some ⟨"http", "b", "", ""⟩
  else if s = "http://a" then some ⟨"http", "a", "", ""⟩
  else if s = "" then some ⟨"", "", "", ""⟩
  else none

def respA : RespData := ⟨200, "200 OK", []⟩

def respB : RespData := ⟨201, "201 Created", []⟩

theorem replayEffects_length (parse : String → Option GoURL)
    (p q : String) (dd : Destination) :
    ∀ (ds : List Destination) (oracle : Nat → ReplayOutcome),
      (replayEffects parse p q dd ds oracle).length = ds.length
  | [], _ => rfl
  | _ :: ds, oracle => by
      simp [replayEffects, replayEffects_length parse p q dd ds]

theorem mem_replayEffects (parse : String → Option GoURL)
    (p q : String) (dd : Destination) :
    ∀ (ds : List Destination) (oracle : Nat → ReplayOutcome) (e : ReplayEffect),
      e ∈ replayEffects parse p q dd ds oracle →
      ∃ i, ∃ hi : i < ds.length,
        e = runReplay parse p q dd (ds.get ⟨i, hi⟩) (oracle i)
  | [], _, _, h => absurd h (by simp [replayEffects])
  | d :: ds, oracle, e, h => by
      rw [replayEffects, List.mem_cons] at h
      rcases h with h0 | h1
      · exact ⟨0, Nat.succ_pos _, h0⟩
      · obtain ⟨i, hi, he⟩ :=
          mem_replayEffects parse p q dd ds (fun n => oracle (n + 1)) e h1
        exact ⟨i + 1, Nat.succ_lt_succ hi, he⟩

theorem replayEffects_get (parse : String → Option GoURL)
    (p q : String) (dd : Destination) :
    ∀ (ds : List Destination) (oracle : Nat → ReplayOutcome)
      (i : Nat) (hi : i < ds.length),
      runReplay parse p q dd (ds.get ⟨i, hi⟩) (oracle i)
        ∈ replayEffects parse p q dd ds oracle
  | d :: ds, oracle, 0, _ => by rw [replayEffects]; exact List.mem_cons_self _ _
  | d :: ds, oracle, i + 1, hi => by
      rw [replayEffects]
      exact List.mem_cons_of_mem _
        (replayEffects_get parse p q dd ds (fun n => oracle (n + 1)) i
          (Nat.lt_of_succ_lt_succ hi))

theorem runReplay_dest (parse : String → Option GoURL) (p q : String)
    (dd d : Destination) (o : ReplayOutcome) :
    (runReplay parse p q dd d o).dest = d := by
  unfold runReplay
  cases parse d.url with
  | none => rfl
  | some base =>
      cases o with
      | newReqErr m => rfl
      | doErr m => rfl
      | resp r read =>
          by_cases h : d.url = dd.url
          · cases read <;> simp [h]
          · simp [h]

theorem runReplay_capture_both (parse : String → Option GoURL) (p q : String)
    (dd d : Destination) (o : ReplayOutcome) (r : RespData) (b : String)
    (h : (runReplay parse p q dd d o).capture = .both r b) :
    d.url = dd.url ∧ o = .resp r (.ok b) := by
  unfold runReplay at h
  cases hp : parse d.url with
  | none => rw [hp] at h; cases h
  | some base =>
      rw [hp] at h
      cases o with
      | newReqErr m => cases h
      | doErr m => cases h
      | resp r0 read =>
          by_cases hu : d.url = dd.url
          · cases read with
            | ok b0 =>
                simp only [hu, if_pos] at h
                simp at h
                exact ⟨hu, by rw [h.1, h.2]⟩
            | fail pb => simp [hu] at h
          · simp [hu] at h

theorem runReplay_capture_other (parse : String → Option GoURL) (p q : String)
    (dd d : Destination) (o : ReplayOutcome) (hu : d.url ≠ dd.url) :
    (runReplay parse p q dd d o).capture = .noCapture := by
  unfold runReplay
  cases parse d.url with
  | none => rfl
  | some base =>
      cases o with
      | newReqErr m => rfl
      | doErr m => rfl
      | resp r read => simp [hu]

theorem foldl_capture_fst (effs : List ReplayEffect) :
    ∀ s : Option RespData × Option String,
      (∀ e ∈ effs, ∀ r b, e.capture ≠ .both r b) →
      (effs.foldl (fun s e => applyCapture s e.capture) s).1 = s.1 := by
  induction effs with
  | nil => intro s _; rfl
  | cons e effs ih =>
      intro s h
      have he := h e (List.mem_cons_self _ _)
      have htail : ∀ x ∈ effs, ∀ r b, x.capture ≠ .both r b :=
        fun x hx => h x (List.mem_cons_of_mem _ hx)
      rw [List.foldl_cons, ih _ htail]
      cases hc : e.capture with
      | noCapture => simp [applyCapture, hc]
      | bodyOnly b => simp [applyCapture, hc]
      | both r b => exact absurd hc (he r b)

theorem foldl_capture_stable (r : RespData) (b : String) :
    ∀ effs : List ReplayEffect,
      (∀ e ∈ effs, e.capture = .noCapture ∨ e.capture = .both r b) →
      effs.foldl (fun s e => applyCapture s e.capture) (some r, some b)
        = (some r, some b)
  | [], _ => rfl
  | e :: effs, h => by
      have he := h e (List.mem_cons_self _ _)
      have htail : ∀ x ∈ effs, x.capture = .noCapture ∨ x.capture = .both r b :=
        fun x hx => h x (List.mem_cons_of_mem _ hx)
      rw [List.foldl_cons]
      rcases he with hc | hc <;>
        simp only [applyCapture, hc] <;>
        exact foldl_capture_stable r b effs htail

theorem foldl_capture_single (r : RespData) (b : String) :
    ∀ (effs : List ReplayEffect) (s : Option RespData × Option String),
      (∀ e ∈ effs, e.capture = .noCapture ∨ e.capture = .both r b) →
      (∃ e ∈ effs, e.capture = .both r b) →
      effs.foldl (fun s e => applyCapture s e.capture) s = (some r, some b)
  | [], _, _, hex => absurd hex (by simp)
  | e :: effs, s, h, hex => by
      have he := h e (List.mem_cons_self _ _)
      have htail : ∀ x ∈ effs, x.capture = .noCapture ∨ x.capture = .both r b :=
        fun x hx => h x (List.mem_cons_of_mem _ hx)
      rw [List.foldl_cons]
      rcases he with hc | hc
      · obtain ⟨x, hx, hxc⟩ := hex
        rcases List.mem_cons.mp hx with rfl | hx
        · rw [hc] at hxc; cases hxc
        · exact foldl_capture_single r b effs _ htail ⟨x, hx, hxc⟩
      · simp only [applyCapture, hc]
        exact foldl_capture_stable r b effs htail

theorem line_mem_forward (parse : String → Option GoURL) (p q : String)
    (ds : List Destination) (dd : Destination) (oracle : Nat → ReplayOutcome)
    (i : Nat) (hi : i < ds.length) (l : String)
    (hl : l ∈ (runReplay parse p q dd (ds.get ⟨i, hi⟩) (oracle i)).lines) :
    l ∈ (forwardRequestToDestinations parse p q ds dd oracle).1 := by
  have hmem := replayEffects_get parse p q dd ds oracle i hi
  simp only [forwardRequestToDestinations]
  exact List.mem_flatten.mpr ⟨_, List.mem_map_of_mem _ hmem, hl⟩

/-- Claim C1 (amended): when the replay to the selected default destination
errors and no replay whose destination URL equals the default destination
URL yields a fully read response, `forwardRequestToDestinations` returns the
error for the caller (`DefaultDestinationUnreachable` in the spec taxonomy),
whatever the outcomes at every other URL; no captured response is returned.
The amendment excludes eligible destinations that share the default URL,
because the capture condition compares URL strings (see claim C10). -/
theorem default_failure_dominates (parse : String → Option GoURL)
    (p q : String) (dests : List Destination) (dd : Destination)
    (oracle : Nat → ReplayOutcome)
    (h : ∀ i (hi : i < dests.length), (dests.get ⟨i, hi⟩).url = dd.url →
      ∀ r b, oracle i ≠ .resp r (.ok b)) :
    (forwardRequestToDestinations parse p q dests dd oracle).2
      = .error "no response received from default destination" := by
  have hno : ∀ e ∈ replayEffects parse p q dd dests oracle,
      ∀ r b, e.capture ≠ .both r b := by
    intro e he r b hc
    obtain ⟨i, hi, rfl⟩ := mem_replayEffects parse p q dd dests oracle e he
    obtain ⟨hu, ho⟩ := runReplay_capture_both _ _ _ _ _ _ _ _ hc
    exact h i hi hu r b ho
  have hfst : (finalCapture (replayEffects parse p q dd dests oracle)).1 = none :=
    foldl_capture_fst _ _ hno
  simp only [forwardRequestToDestinations]
  cases hfc : finalCapture (replayEffects parse p q dd dests oracle) with
  | mk fst snd =>
      rw [hfc] at hfst
      simp only at hfst
      subst hfst
      rfl

theorem default_failure_dominates_witness :
    (forwardRequestToDestinations parseDemo "/p" ""
      [⟨"http://u", "", true, true⟩] ⟨"http://u", "", true, true⟩
      (fun _ => .doErr "connection refused")).2
      = .error "no response received from default destination" :=
  default_failure_dominates parseDemo "/p" "" _ _ _
    (fun _ _ _ _ _ hne => ReplayOutcome.noConfusion hne)

/-- Claim C1 counterexample: the selected eligible default destination (index
0, flagged) has its replay refused, every other eligible destination (index
1) succeeds, yet the dispatch returns a captured response instead of the
`DefaultDestinationUnreachable` failure, because the succeeding non-default
destination carries the same URL string. -/
theorem default_failure_counterexample :
    ((fun n => if n = 0 then ReplayOutcome.doErr "connection refused"
        else ReplayOutcome.resp respB (.ok "body2")) 0
      = ReplayOutcome.doErr "connection refused") ∧
    (forwardRequestToDestinations parseDemo "/p" ""
      [⟨"http://u", "", true, true⟩, ⟨"http://u", "", true, false⟩]
      ⟨"http://u", "", true, true⟩
      (fun n => if n = 0 then ReplayOutcome.doErr "connection refused"
        else ReplayOutcome.resp respB (.ok "body2"))).2
      = .ok (respB, "body2") := by decide

/-- Claim C10: the capture condition of the forwarder is string equality
between the replayed destination URL and the default destination URL, not
destination identity; consequently a non-default destination that shares
the default URL satisfies the capture condition, and its response can be
the one returned to the caller (concrete dispatch below returns the second,
non-default destination response). -/
theorem capture_by_url_equality :
    (∀ (parse : String → Option GoURL) (p q : String) (dd d : Destination)
        (r : RespData) (b : String) (u : GoURL), parse d.url = some u →
        ((runReplay parse p q dd d (.resp r (.ok b))).capture = .both r b
          ↔ d.url = dd.url)) ∧
    (forwardRequestToDestinations parseDemo "/p" ""
      [⟨"http://u", "", true, true⟩, ⟨"http://u", "", true, false⟩]
      ⟨"http://u", "", true, true⟩
      (fun n => if n = 0 then .resp respA (.ok "body1")
        else .resp respB (.ok "body2"))).2
      = .ok (respB, "body2") ∧
    respB ≠ respA := by
  refine ⟨?_, by decide, by decide⟩
  intro parse p q dd d r b u hp
  constructor
  · intro hc
    exact (runReplay_capture_both parse p q dd d _ r b hc).1
  · intro hu
    unfold runReplay
    rw [hp]
    simp [hu]

theorem capture_by_url_equality_witness :
    (runReplay parseDemo "/p" "" ⟨"http://u", "", true, true⟩
        ⟨"http://u", "", true, false⟩ (.resp respB (.ok "body2"))).capture
      = .both respB "body2"
      ↔ (⟨"http://u", "", true, false⟩ : Destination).url
          = Destination.url ⟨"http://u", "", true, true⟩ :=
  capture_by_url_equality.1 parseDemo "/p" "" _ _ respB "body2"
    ⟨"http", "u", "", ""⟩ (by decide)

/-- Claim C2 (amended): when the replay to the default destination (position
`j`) succeeds with a fully read body, no other listed destination shares the
default URL, and the replay to a non-default destination (position `i`)
fails at the HTTP call itself, the dispatch returns the default captured
response — the non-default failure is never escalated — and the hub receives
both the error line for the failed destination and the success line for the
default.  The amendment restricts the failure mode to the HTTP call: a URL
parse failure or a request construction failure produces no hub line (see
the counterexample), and excludes duplicate default URLs (claim C10). -/
theorem partial_failure_policy (parse : String → Option GoURL)
    (p q : String) (dests : List Destination) (dd : Destination)
    (oracle : Nat → ReplayOutcome)
    (j : Nat) (hj : j < dests.length) (hdj : dests.get ⟨j, hj⟩ = dd)
    (huniq : ∀ k (hk : k < dests.length), k ≠ j →
      (dests.get ⟨k, hk⟩).url ≠ dd.url)
    (ud : GoURL) (hpd : parse dd.url = some ud)
    (r : RespData) (b : String) (hoj : oracle j = .resp r (.ok b))
    (i : Nat) (hi : i < dests.length) (hne : i ≠ j)
    (ui : GoURL) (hpi : parse (dests.get ⟨i, hi⟩).url = some ui)
    (em : String) (hoi : oracle i = .doErr em) :
    (forwardRequestToDestinations parse p q dests dd oracle).2 = .ok (r, b) ∧
    ("Error forwarding to " ++ urlString (composeForwardURL ui p q)
        ++ ": " ++ em)
      ∈ (forwardRequestToDestinations parse p q dests dd oracle).1 ∧
    ("Request forwarded to " ++ urlString (composeForwardURL ud p q)
        ++ " with status: " ++ r.status)
      ∈ (forwardRequestToDestinations parse p q dests dd oracle).1 := by
  refine ⟨?_, ?_, ?_⟩
  · have hall : ∀ e ∈ replayEffects parse p q dd dests oracle,
        e.capture = .noCapture ∨ e.capture = .both r b := by
      intro e he
      obtain ⟨k, hk, rfl⟩ := mem_replayEffects parse p q dd dests oracle e he
      by_cases hkj : k = j
      · subst hkj
        right
        rw [hdj, hoj]
        unfold runReplay
        rw [hpd]
        simp
      · exact Or.inl (runReplay_capture_other _ _ _ _ _ _ (huniq k hk hkj))
    have hex : ∃ e ∈ replayEffects parse p q dd dests oracle,
        e.capture = .both r b := by
      refine ⟨runReplay parse p q dd (dests.get ⟨j, hj⟩) (oracle j),
        replayEffects_get parse p q dd dests oracle j hj, ?_⟩
      rw [hdj, hoj]
      unfold runReplay
      rw [hpd]
      simp
    have hfc : finalCapture (replayEffects parse p q dd dests oracle)
        = (some r, some b) := foldl_capture_single r b _ _ hall hex
    simp only [forwardRequestToDestinations]
    rw [hfc]
    rfl
  · apply line_mem_forward parse p q dests dd oracle i hi
    rw [hoi]
    unfold runReplay
    rw [hpi]
    simp
  · apply line_mem_forward parse p q dests dd oracle j hj
    rw [hdj, hoj]
    unfold runReplay
    rw [hpd]
    simp

theorem partial_failure_policy_witness :
    (forwardRequestToDestinations parseDemo "/p" ""
      [⟨"http://u", "", true, true⟩, ⟨"http://a", "", true, false⟩]
      ⟨"http://u", "", true, true⟩
      (fun n => if n = 0 then .resp respA (.ok "body1")
        else .doErr "connection refused")).2 = .ok (respA, "body1") ∧
    ("Error forwarding to "
        ++ urlString (composeForwardURL ⟨"http", "a", "", ""⟩ "/p" "")
        ++ ": " ++ "connection refused")
      ∈ (forwardRequestToDestinations parseDemo "/p" ""
          [⟨"http://u", "", true, true⟩, ⟨"http://a", "", true, false⟩]
          ⟨"http://u", "", true, true⟩
          (fun n => if n = 0 then .resp respA (.ok "body1")
            else .doErr "connection refused")).1 ∧
    ("Request forwarded to "
        ++ urlString (composeForwardURL ⟨"http", "u", "", ""⟩ "/p" "")
        ++ " with status: " ++ respA.status)
      ∈ (forwardRequestToDestinations parseDemo "/p" ""
          [⟨"http://u", "", true, true⟩, ⟨"http://a", "", true, false⟩]
          ⟨"http://u", "", true, true⟩
          (fun n => if n = 0 then .resp respA (.ok "body1")
            else .doErr "connection refused")).1 :=
  partial_failure_policy parseDemo "/p" ""
    [⟨"http://u", "", true, true⟩, ⟨"http://a", "", true, false⟩]
    ⟨"http://u", "", true, true⟩
    (fun n => if n = 0 then .resp respA (.ok "body1")
      else .doErr "connection refused")
    0 (by decide) rfl
    (by
      intro k hk hkj
      rcases k with _ | _ | k
      · exact absurd rfl hkj
      · exact (by decide : ("http://a" : String) ≠ "http://u")
      · simp only [List.length_cons, List.length_nil] at hk
        omega)
    ⟨"http", "u", "", ""⟩ (by decide) respA "body1" rfl
    1 (by decide) (by decide) ⟨"http", "a", "", ""⟩ (by decide)
    "connection refused" rfl

theorem issued_all (parse : String → Option GoURL) (p q : String)
    (dd : Destination) :
    ∀ (ds : List Destination) (oracle : Nat → ReplayOutcome),
      (∀ d ∈ ds, (parse d.url).isSome = true) →
      (∀ i msg, oracle i ≠ .newReqErr msg) →
      ((replayEffects parse p q dd ds oracle).filter ReplayEffect.issued).map
        ReplayEffect.dest = ds
  | [], _, _, _ => rfl
  | d :: ds, oracle, hp, hn => by
      rw [replayEffects]
      have hissued : (runReplay parse p q dd d (oracle 0)).issued = true := by
        have hds := hp d (List.mem_cons_self _ _)
        unfold runReplay
        cases hpd : parse d.url with
        | none => rw [hpd] at hds; cases hds
        | some base =>
            cases ho : oracle 0 with
            | newReqErr msg => exact absurd ho (hn 0 msg)
            | doErr msg => rfl
            | resp r read =>
                by_cases hu : d.url = dd.url
                · cases read <;> simp [hu]
                · simp [hu]
      rw [List.filter_cons_of_pos hissued, List.map_cons, runReplay_dest]
      congr 1
      exact issued_all parse p q dd ds (fun n => oracle (n + 1))
        (fun x hx => hp x (List.mem_cons_of_mem _ hx))
        (fun i msg => hn (i + 1) msg)

/-- Claim C3 (amended): the fan-out is computed over exactly the eligible
set (active and wildcard-or-exact-method).  When the eligible set is empty,
dispatch fails 502 `NoEligibleDestinations` and issues no outbound replay.
When some eligible destination carries the default flag, the default URL
checks pass, every eligible destination URL parses and every outbound
request construction succeeds, the destinations to which an outbound
request is issued are exactly the eligible set.  The amendment adds the
reach-the-fan-out conditions: when default selection or the default URL
checks fail, no replay is issued despite a non-empty eligible set (see the
counterexample), and a destination whose URL does not parse or whose
request construction fails never receives an outbound request. -/
theorem eligible_fanout (parse : String → Option GoURL)
    (m p q : String) (dests : List Destination)
    (oracle : Nat → ReplayOutcome) :
    ((activeDestinations dests m).isEmpty = true →
      ForwardRequest parse m p q dests oracle
        = ⟨[], [], .httpError 502 "No active destinations available"⟩) ∧
    (∀ dl u, dests.any (fun d => eligible d m && d.isDefault) = true →
      dests.getLast? = some dl → dl.url ≠ "" → parse dl.url = some u →
      (∀ d ∈ activeDestinations dests m, (parse d.url).isSome = true) →
      (∀ i msg, oracle i ≠ .newReqErr msg) →
      (ForwardRequest parse m p q dests oracle).replays
        = activeDestinations dests m) := by
  constructor
  · intro hemp
    simp only [ForwardRequest]
    rw [if_pos hemp]
  · intro dl u hflag hlast hurl hp hpall hnoreq
    have hne : (activeDestinations dests m).isEmpty = false := by
      obtain ⟨d, hd, hprop⟩ := List.any_eq_true.mp hflag
      have heli : eligible d m = true := by
        rw [Bool.and_eq_true] at hprop
        exact hprop.1
      have hmem : d ∈ activeDestinations dests m :=
        List.mem_filter.mpr ⟨hd, heli⟩
      cases hie : (activeDestinations dests m).isEmpty with
      | false => rfl
      | true =>
          rw [List.isEmpty_iff] at hie
          rw [hie] at hmem
          cases hmem
    have hsel : selectedDefault dests m = some dl := by
      unfold selectedDefault
      rw [if_pos hflag, hlast]
    simp only [ForwardRequest]
    rw [hne, hsel]
    simp only [Bool.false_eq_true, if_false]
    simp only [dispatchFromDefault]
    rw [if_neg hurl, hp]
    exact issued_all parse p q dl (activeDestinations dests m) oracle hpall hnoreq

theorem eligible_fanout_witness :
    (ForwardRequest parseDemo "GET" "/p" "" [] (fun _ => .doErr "x")
      = ⟨[], [], .httpError 502 "No active destinations available"⟩) ∧
    ((ForwardRequest parseDemo "GET" "/p" ""
        [⟨"http://a", "", true, true⟩, ⟨"http://b", "", true, false⟩]
        (fun _ => .doErr "x")).replays
      = activeDestinations
          [⟨"http://a", "", true, true⟩, ⟨"http://b", "", true, false⟩] "GET") :=
  ⟨(eligible_fanout parseDemo "GET" "/p" "" [] (fun _ => .doErr "x")).1
      (by decide),
   (eligible_fanout parseDemo "GET" "/p" ""
      [⟨"http://a", "", true, true⟩, ⟨"http://b", "", true, false⟩]
      (fun _ => .doErr "x")).2
     ⟨"http://b", "", true, false⟩ ⟨"http", "b", "", ""⟩
     (by decide) (by decide) (by decide) (by decide) (by decide)
     (fun i msg hne => ReplayOutcome.noConfusion hne)⟩

/-- Claim C3 counterexample: a destination list whose eligible set is the
non-empty singleton below receives no outbound replay at all, because no
destination carries the default flag and dispatch fails before the fan-out;
the set of destinations receiving a replay (empty) differs from the
eligible set. -/
theorem eligible_fanout_counterexample :
    (activeDestinations [⟨"http://a", "", true, false⟩] "GET"
      = [⟨"http://a", "", true, false⟩]) ∧
    ForwardRequest parseDemo "GET" "/p" "" [⟨"http://a", "", true, false⟩]
      (fun _ => .resp respA (.ok "ok"))
    = ⟨[], [], .httpError 500 "No default destination specified"⟩ := by decide

/-- Claim C4: under the declared Go 1.16 semantics, `defaultDestination`
holds the address of the single range-loop variable; whenever at least one
eligible destination carries the default flag, the record the handler then
uses as the default — for the empty-URL check and as the capture target of
the forwarder — is the final value of that variable, the last element of
the directory list, whether or not that last element is itself flagged. -/
theorem default_is_last_element (parse : String → Option GoURL)
    (m p q : String) (dests : List Destination)
    (oracle : Nat → ReplayOutcome) (dl : Destination)
    (hflag : dests.any (fun d => eligible d m && d.isDefault) = true)
    (hlast : dests.getLast? = some dl) :
    selectedDefault dests m = some dl ∧
    ForwardRequest parse m p q dests oracle
      = dispatchFromDefault parse p q (activeDestinations dests m) dl oracle := by
  have hsel : selectedDefault dests m = some dl := by
    unfold selectedDefault
    rw [if_pos hflag, hlast]
  refine ⟨hsel, ?_⟩
  have hne : (activeDestinations dests m).isEmpty = false := by
    obtain ⟨d, hd, hprop⟩ := List.any_eq_true.mp hflag
    have heli : eligible d m = true := by
      rw [Bool.and_eq_true] at hprop
      exact hprop.1
    have hmem : d ∈ activeDestinations dests m :=
      List.mem_filter.mpr ⟨hd, heli⟩
    cases hie : (activeDestinations dests m).isEmpty with
    | false => rfl
    | true =>
        rw [List.isEmpty_iff] at hie
        rw [hie] at hmem
        cases hmem
  simp only [ForwardRequest]
  rw [hne, hsel]
  rfl

/-- Witness for claim C4: the only flagged destination is the first element,
yet the record used as the default is the unflagged last element. -/
theorem default_is_last_element_witness :
    selectedDefault
        [⟨"http://a", "", true, true⟩, ⟨"http://b", "", true, false⟩] "GET"
      = some ⟨"http://b", "", true, false⟩ ∧
    ForwardRequest parseDemo "GET" "/p" ""
        [⟨"http://a", "", true, true⟩, ⟨"http://b", "", true, false⟩]
        (fun _ => .doErr "x")
      = dispatchFromDefault parseDemo "/p" ""
          (activeDestinations
            [⟨"http://a", "", true, true⟩, ⟨"http://b", "", true, false⟩] "GET")
          ⟨"http://b", "", true, false⟩ (fun _ => .doErr "x") :=
  default_is_last_element parseDemo "GET" "/p" ""
    [⟨"http://a", "", true, true⟩, ⟨"http://b", "", true, false⟩]
    (fun _ => .doErr "x") ⟨"http://b", "", true, false⟩
    (by decide) (by decide)

/-- Claim C2 counterexample: the default destination replay succeeds and the
non-default destination replay fails (its URL does not parse), yet the hub
receives exactly one line — the default success line — and no error line for
the failed destination, because a URL parse failure is only logged. -/
theorem partial_failure_counterexample :
    (parseDemo "://bad" = none) ∧
    forwardRequestToDestinations parseDemo "/p" ""
      [⟨"http://u", "", true, true⟩, ⟨"://bad", "", true, false⟩]
      ⟨"http://u", "", true, true⟩ (fun _ => .resp respA (.ok "body1"))
    = (["Request forwarded to http://u/p with status: 200 OK"],
       .ok (respA, "body1")) := by decide

/-- Claim C5, code bug: the eligible set contains a default-flagged
destination with an empty URL (first conjunct), so per the claim dispatch
must fail `EmptyDefaultURL` before any outbound request.  Instead the
empty-URL check reads the aliased last list element (whose URL is
non-empty), replays are issued to both destinations — including the
empty-URL one — and a success response is returned. -/
theorem empty_default_url_bug :
    ((activeDestinations
        [⟨"", "", true, true⟩, ⟨"http://b", "", true, false⟩] "GET").any
      (fun d => d.isDefault && (d.url == "")) = true) ∧
    ForwardRequest parseDemo "GET" "/p" ""
      [⟨"", "", true, true⟩, ⟨"http://b", "", true, false⟩]
      (fun n => if n = 0 then .doErr "unsupported protocol scheme"
        else .resp respA (.ok "hello"))
    = ⟨["Error forwarding to /p: unsupported protocol scheme",
        "Request forwarded to http://b/p with status: 200 OK"],
       [⟨"", "", true, true⟩, ⟨"http://b", "", true, false⟩],
       .success respA "hello"⟩ := by decide

/-- Claim C6: forward URL composition.  Base `http://x/api/` with inbound
path `/v1/items` and query `x=1` yields `http://x/api/v1/items?x=1`; base
`http://x/api` (no trailing slash) yields the identical URL; an empty base
path and a root base path keep exactly one separator; the query string is
preserved in each case. -/
theorem url_composition_spec :
    urlString (composeForwardURL ⟨"http", "x", "/api/", ""⟩ "/v1/items" "x=1")
      = "http://x/api/v1/items?x=1" ∧
    urlString (composeForwardURL ⟨"http", "x", "/api", ""⟩ "/v1/items" "x=1")
      = "http://x/api/v1/items?x=1" ∧
    urlString (composeForwardURL ⟨"http", "x", "", ""⟩ "/v1/items" "x=1")
      = "http://x/v1/items?x=1" ∧
    urlString (composeForwardURL ⟨"http", "x", "/", ""⟩ "/v1/items" "x=1")
      = "http://x/v1/items?x=1" := by decide

/-- Whether one replay broadcasts a hub line: the destination URL must
parse, and the HTTP call must complete — an error from the call gives the
error line, a response gives the success line unless the replay is the
default-URL capture and its body read fails. -/
def emitsLine (parse : String → Option GoURL) (dd d : Destination)
    (o : ReplayOutcome) : Bool :=
  match parse d.url with
  | none => false
  | some _ =>
    match o with
    | .newReqErr _ => false
    | .doErr _ => true
    | .resp _ read =>
        if d.url = dd.url then
          match read with
          | .ok _ => true
          | .fail _ => false
        else true

/-- Number of replays of a dispatch that broadcast a hub line. -/
def countEmitting (parse : String → Option GoURL) (dd : Destination) :
    List Destination → (Nat → ReplayOutcome) → Nat
  | [], _ => 0
  | d :: ds, oracle =>
      (if emitsLine parse dd d (oracle 0) then 1 else 0) +
        countEmitting parse dd ds (fun n => oracle (n + 1))

theorem runReplay_lines_length (parse : String → Option GoURL)
    (p q : String) (dd d : Destination) (o : ReplayOutcome) :
    (runReplay parse p q dd d o).lines.length
      = if emitsLine parse dd d o then 1 else 0 := by
  unfold runReplay emitsLine
  cases parse d.url with
  | none => rfl
  | some base =>
      cases o with
      | newReqErr m => rfl
      | doErr m => rfl
      | resp r read =>
          by_cases hu : d.url = dd.url
          · cases read <;> simp [hu]
          · simp [hu]

/-- Claim C7 (amended): the hub receives one line per replay whose HTTP call
completes — an error line when the call fails, the success line when a
response arrives, except that the default-URL capture replay whose body
read fails emits none — and replays whose URL does not parse or whose
request construction fails emit none; every replay emits at most one line.
The per-replay emission order of the concurrent goroutines is outside this
sequential embedding; the counterexample already refutes the one-line-per-
replay reading for the parse-failure and body-read-failure modes. -/
theorem hub_line_emission (parse : String → Option GoURL) (p q : String)
    (dd : Destination) :
    (∀ (ds : List Destination) (oracle : Nat → ReplayOutcome),
      (forwardRequestToDestinations parse p q ds dd oracle).1.length
        = countEmitting parse dd ds oracle) ∧
    (∀ (d : Destination) (o : ReplayOutcome),
      (runReplay parse p q dd d o).lines.length ≤ 1) := by
  constructor
  · intro ds
    induction ds with
    | nil => intro oracle; rfl
    | cons d ds ih =>
        intro oracle
        simp only [forwardRequestToDestinations] at ih ⊢
        rw [replayEffects, countEmitting, List.map_cons, List.flatten_cons,
          List.length_append, runReplay_lines_length,
          ih (fun n => oracle (n + 1))]
  · intro d o
    rw [runReplay_lines_length]
    by_cases h : emitsLine parse dd d o <;> simp [h]

/-- Claim C7 counterexample: two single-replay dispatches that broadcast
zero lines — the first because the destination URL does not parse, the
second because the default-URL capture replay fails while reading the
response body — refuting one formatted line for every replay. -/
theorem hub_line_emission_counterexample :
    (forwardRequestToDestinations parseDemo "/p" ""
      [⟨"://bad", "", true, false⟩] ⟨"http://u", "", true, true⟩
      (fun _ => .doErr "x")).1 = [] ∧
    (forwardRequestToDestinations parseDemo "/p" ""
      [⟨"http://u", "", true, true⟩] ⟨"http://u", "", true, true⟩
      (fun _ => .resp respA (.fail "partialBytes"))).1 = [] := by decide

theorem broadcast_kept (message : String) :
    ∀ (cs : List Subscriber) (x : Subscriber),
      x ∈ (BroadcastTraffic message cs).1 → x.writeOk = true
  | [], _, h => absurd h (by simp [BroadcastTraffic])
  | a :: cs, x, h => by
      rw [BroadcastTraffic] at h
      by_cases hw : a.writeOk = true
      · rw [if_pos hw] at h
        rcases List.mem_cons.mp h with rfl | h
        · exact hw
        · exact broadcast_kept message cs x h
      · rw [if_neg hw] at h
        exact broadcast_kept message cs x h

theorem broadcast_delivers (message : String) :
    ∀ (cs : List Subscriber) (c : Subscriber), c ∈ cs → c.writeOk = true →
      (c, message) ∈ (BroadcastTraffic message cs).2
  | [], c, hc, _ => absurd hc (by simp)
  | a :: cs, c, hc, hw => by
      rw [BroadcastTraffic]
      rcases List.mem_cons.mp hc with rfl | hc
      · rw [if_pos hw]
        exact List.mem_cons_self _ _
      · by_cases hwa : a.writeOk = true
        · rw [if_pos hwa]
          exact List.mem_cons_of_mem _ (broadcast_delivers message cs c hc hw)
        · rw [if_neg hwa]
          exact broadcast_delivers message cs c hc hw

/-- Claim C8: broadcasting a line writes it to every subscriber whose write
succeeds, and a subscriber whose write fails is removed from the set; one
subscriber failure never aborts delivery to the remaining subscribers. -/
theorem broadcast_isolation (message : String) (clients : List Subscriber)
    (c : Subscriber) (hc : c ∈ clients) :
    (c.writeOk = true → (c, message) ∈ (BroadcastTraffic message clients).2) ∧
    (c.writeOk = false → c ∉ (BroadcastTraffic message clients).1) :=
  ⟨fun hw => broadcast_delivers message clients c hc hw,
   fun hw hmem => by
     rw [broadcast_kept message clients c hmem] at hw
     cases hw⟩

/-- Witness for claim C8: three subscribers, the write to the second fails;
the first and third both receive the line and the second is absent from the
subscriber set afterwards. -/
theorem broadcast_isolation_witness :
    ((⟨1, true⟩ : Subscriber), "line")
        ∈ (BroadcastTraffic "line" [⟨1, true⟩, ⟨2, false⟩, ⟨3, true⟩]).2 ∧
    ((⟨3, true⟩ : Subscriber), "line")
        ∈ (BroadcastTraffic "line" [⟨1, true⟩, ⟨2, false⟩, ⟨3, true⟩]).2 ∧
    (⟨2, false⟩ : Subscriber)
        ∉ (BroadcastTraffic "line" [⟨1, true⟩, ⟨2, false⟩, ⟨3, true⟩]).1 :=
  ⟨(broadcast_isolation "line" [⟨1, true⟩, ⟨2, false⟩, ⟨3, true⟩]
      ⟨1, true⟩ (by decide)).1 rfl,
   (broadcast_isolation "line" [⟨1, true⟩, ⟨2, false⟩, ⟨3, true⟩]
      ⟨3, true⟩ (by decide)).1 rfl,
   (broadcast_isolation "line" [⟨1, true⟩, ⟨2, false⟩, ⟨3, true⟩]
      ⟨2, false⟩ (by decide)).2 rfl⟩

/-- Claim C9: a pair of inputs exercising the two situations — first input:
the eligible set is non-empty and none of its members is flagged default;
second input: a flagged default exists in the directory but is ineligible
(inactive) — on which dispatch produces distinguishable reportable
failures (status 500 `No default destination specified` versus status 502
`No active destinations available`). -/
theorem distinct_default_failures :
    ((activeDestinations [⟨"http://a", "", true, false⟩] "GET").isEmpty
      = false) ∧
    ((activeDestinations [⟨"http://a", "", true, false⟩] "GET").any
      Destination.isDefault = false) ∧
    (([⟨"http://b", "", false, true⟩] : List Destination).any
      (fun d => d.isDefault && !(eligible d "GET")) = true) ∧
    (ForwardRequest parseDemo "GET" "/" "" [⟨"http://a", "", true, false⟩]
      (fun _ => .doErr "x")).result
      = .httpError 500 "No default destination specified" ∧
    (ForwardRequest parseDemo "GET" "/" "" [⟨"http://b", "", false, true⟩]
      (fun _ => .doErr "x")).result
      = .httpError 502 "No active destinations available" := by decide
